import Mathlib

/-!
Verification development for the SurveyPro repository (survey authoring /
response collection app).  The definitions below are a shallow embedding of
the server storage layer (`server/storage.ts`, `DatabaseStorage` over
drizzle/Postgres), the Express routes (`server/routes.ts`), the shared
schema (`shared/schema.ts`), and the client analytics
(`client/src/components — getQuestionAnalytics`).

Conventions of the embedding:
- A table is a Lean `List` of rows in insertion order; `db.select().where(p)`
  is `List.filter`, `const [x] = await db.select()...` is `(·.filter p).head?`
  (first matching row).
- Timestamps are `Nat` (`new Date()` is an explicit `now` parameter); ids and
  share tokens generated by `gen_random_uuid()` defaults are explicit
  parameters.
- Chained `.where(a).where(b)` on a drizzle select builder overwrites the
  first clause with the second (the builder stores a single `config.where`),
  so only `b` filters — this matters for `getSurveyStats`.
- JavaScript plain objects used as count maps are modelled as
  insertion-ordered association lists, with `Object.entries` enumerating
  array-index-like keys first in ascending numeric order, then the remaining
  keys in insertion order (ECMAScript OrdinaryOwnPropertyKeys).
- `ON DELETE CASCADE` declarations of `shared/schema.ts` are unfolded into
  `deleteSurvey` / `deleteQuestion` explicitly.
-/

namespace SurveyPro

/-- Row of the `surveys` table (shared/schema.ts). -/
structure Survey where
  id : String
  title : String
  description : Option String
  createdBy : String
  status : String
  anonymous : Bool
  multipleResponses : Bool
  shareToken : String
  createdAt : Nat
  updatedAt : Nat
deriving Repr, DecidableEq

/-- Row of the `questions` table (shared/schema.ts).  `options` is a nullable
jsonb column used by multiple-choice questions; `order` is an SQL integer. -/
structure Question where
  id : String
  surveyId : String
  text : String
  type : String
  required : Bool
  options : Option (List String)
  order : Int
  createdAt : Nat
deriving Repr, DecidableEq

/-- Row of the `responses` table (shared/schema.ts). -/
structure Response where
  id : String
  surveyId : String
  respondentId : Option String
  createdAt : Nat
deriving Repr, DecidableEq

/-- Row of the `answers` table (shared/schema.ts). -/
structure Answer where
  id : String
  responseId : String
  questionId : String
  value : String
  createdAt : Nat
deriving Repr, DecidableEq

/-- The persistent store: the four survey-domain tables, each as a list of
rows in insertion order. -/
structure DB where
  surveys : List Survey
  questions : List Question
  responses : List Response
  answers : List Answer
deriving Repr, DecidableEq

/-! ### Storage layer (`DatabaseStorage`, server/storage.ts) -/

/-- Storage op `getSurvey`: `select from surveys where id = id`, first row. -/
def getSurvey (db : DB) (id : String) : Option Survey :=
  (db.surveys.filter (fun s => s.id == id)).head?

/-- Storage op `getSurveyByShareToken`: `select from surveys where shareToken = tok`. -/
def getSurveyByShareToken (db : DB) (tok : String) : Option Survey :=
  (db.surveys.filter (fun s => s.shareToken == tok)).head?

/-- Comparison used by `orderBy(questions.order)`. -/
def qle (a b : Question) : Prop := a.order ≤ b.order

instance : DecidableRel qle := fun a b => inferInstanceAs (Decidable (a.order ≤ b.order))

instance : IsTotal Question qle := ⟨fun a b => Int.le_total a.order b.order⟩

instance : IsTrans Question qle := ⟨fun _ _ _ h h' => le_trans h h'⟩

/-- Storage op `getQuestionsBySurvey`: `select from questions where surveyId = sid
orderBy(questions.order)` (ascending). -/
def getQuestionsBySurvey (db : DB) (sid : String) : List Question :=
  List.insertionSort qle (db.questions.filter (fun q => q.surveyId == sid))

/-- Partial update payload for `updateSurvey` — the fields accepted by
`insertSurveySchema.partial()` at the route (`id`, `createdBy`, `shareToken`,
`createdAt`, `updatedAt` are omitted by the zod schema).  `none` = field not
present in the payload. -/
structure SurveyUpdates where
  title : Option String
  description : Option (Option String)
  status : Option String
  anonymous : Option Bool
  multipleResponses : Option Bool
deriving Repr, DecidableEq

/-- The row produced by `updateSurvey`'s
`set({ ...updates, updatedAt: new Date() })`: payload fields win, all other
fields keep their previous value, `updatedAt` is forced to now. -/
def applySurveyUpdates (s : Survey) (u : SurveyUpdates) (now : Nat) : Survey :=
  { s with
    title := u.title.getD s.title
    description := u.description.getD s.description
    status := u.status.getD s.status
    anonymous := u.anonymous.getD s.anonymous
    multipleResponses := u.multipleResponses.getD s.multipleResponses
    updatedAt := now }

/-- Storage op `updateSurvey`: update the row(s) matching the id, leaving others. -/
def updateSurvey (db : DB) (id : String) (u : SurveyUpdates) (now : Nat) : DB :=
  { db with surveys := db.surveys.map (fun s => if s.id == id then applySurveyUpdates s u now else s) }

/-- Partial update payload for `updateQuestion` — fields accepted by
`insertQuestionSchema` (`id`, `surveyId`, `createdAt` omitted). -/
structure QuestionUpdates where
  text : Option String
  type : Option String
  required : Option Bool
  options : Option (Option (List String))
  order : Option Int
deriving Repr, DecidableEq

/-- The row produced by `updateQuestion`'s `set(updates)`: payload fields win,
all other fields — including `createdAt`, the only timestamp a question row
has — keep their previous value.  The `questions` table has no `updatedAt`
column and `updateQuestion` sets nothing beyond the payload. -/
def applyQuestionUpdates (q : Question) (u : QuestionUpdates) : Question :=
  { q with
    text := u.text.getD q.text
    type := u.type.getD q.type
    required := u.required.getD q.required
    options := u.options.getD q.options
    order := u.order.getD q.order }

/-- Storage op `updateQuestion`: update the row(s) matching the id, leaving others. -/
def updateQuestion (db : DB) (id : String) (u : QuestionUpdates) : DB :=
  { db with questions := db.questions.map (fun q => if q.id == id then applyQuestionUpdates q u else q) }

/-- Storage op `deleteSurvey`: `delete from surveys where id = id`, with the
`ON DELETE CASCADE` declarations of shared/schema.ts unfolded: the survey's
questions and responses are removed, and every answer referencing a removed
response (`answers.responseId` cascade) or a removed question
(`answers.questionId` cascade) is removed. -/
def deleteSurvey (db : DB) (id : String) : DB :=
  let removedQ := db.questions.filter (fun q => q.surveyId == id)
  let removedR := db.responses.filter (fun r => r.surveyId == id)
  { surveys := db.surveys.filter (fun s => !(s.id == id))
    questions := db.questions.filter (fun q => !(q.surveyId == id))
    responses := db.responses.filter (fun r => !(r.surveyId == id))
    answers := db.answers.filter (fun a =>
      !(removedR.any (fun r => r.id == a.responseId) || removedQ.any (fun q => q.id == a.questionId))) }

/-- Storage op `createQuestion`: insert one row.  The storage layer performs no
re-normalisation of `order` values. -/
def createQuestion (db : DB) (q : Question) : DB :=
  { db with questions := db.questions ++ [q] }

/-- Storage op `deleteQuestion`: `delete from questions where id = id` with the
`answers.questionId` cascade unfolded.  No re-normalisation of the remaining
`order` values takes place. -/
def deleteQuestion (db : DB) (id : String) : DB :=
  { db with
    questions := db.questions.filter (fun q => !(q.id == id))
    answers := db.answers.filter (fun a => !(a.questionId == id)) }

/-- Storage op `createResponse`: insert one row. -/
def createResponse (db : DB) (r : Response) : DB :=
  { db with responses := db.responses ++ [r] }

/-- Storage op `createAnswer`: insert one row. -/
def createAnswer (db : DB) (a : Answer) : DB :=
  { db with answers := db.answers ++ [a] }

/-- Storage op `getAnswersBySurvey`: answers inner-joined to responses of the survey. -/
def getAnswersBySurvey (db : DB) (sid : String) : List Answer :=
  db.answers.filter (fun a => db.responses.any (fun r => a.responseId == r.id && r.surveyId == sid))

/-- Result record of `getSurveyStats`. -/
structure SurveyStats where
  totalSurveys : Nat
  totalResponses : Nat
  activeSurveys : Nat
  avgCompletionRate : ℚ
deriving Repr, DecidableEq

/-- Storage op `getSurveyStats` (server/storage.ts).  The `activeSurveys` query chains
`.where(eq(surveys.createdBy, userId)).where(eq(surveys.status, "active"))`;
a drizzle select builder keeps a single where clause, so the second call
overwrites the first and only the status filter is applied.
`avgCompletionRate` is the source's hardcoded `78.5`. -/
def getSurveyStats (db : DB) (userId : String) : SurveyStats :=
  { totalSurveys := (db.surveys.filter (fun s => s.createdBy == userId)).length
    totalResponses := (db.responses.filter (fun r =>
      db.surveys.any (fun s => r.surveyId == s.id && s.createdBy == userId))).length
    activeSurveys := (db.surveys.filter (fun s => s.status == "active")).length
    avgCompletionRate := (157 : ℚ) / 2 }

/-! ### Routes (server/routes.ts) -/

/-- Error responses a route can produce. -/
inductive ApiError where
  | notFound (msg : String)
  | serverError (msg : String)
deriving Repr, DecidableEq

/-- Route `GET /api/surveys/:id` (owner mode): 404 when the survey is absent or not
owned by the caller, otherwise the survey with its questions ordered by
`order` ascending. -/
def getSurveyRoute (db : DB) (userId : String) (id : String) :
    Except ApiError (Survey × List Question) :=
  match getSurvey db id with
  | none => .error (.notFound "Survey not found")
  | some s =>
    if s.createdBy == userId then .ok (s, getQuestionsBySurvey db s.id)
    else .error (.notFound "Survey not found")

/-- Route `GET /api/public/surveys/:shareToken` (public mode): 404 when no survey
carries the token or its status is not `active`, otherwise the survey with
its questions ordered by `order` ascending. -/
def getPublicSurveyRoute (db : DB) (tok : String) :
    Except ApiError (Survey × List Question) :=
  match getSurveyByShareToken db tok with
  | none => .error (.notFound "Survey not found or inactive")
  | some s =>
    if s.status == "active" then .ok (s, getQuestionsBySurvey db s.id)
    else .error (.notFound "Survey not found or inactive")

/-- Question payload accepted by `POST /api/surveys`
(`insertQuestionSchema`); the route overrides `order` with the array index. -/
structure QuestionInput where
  text : String
  type : String
  required : Bool
  options : Option (List String)
  order : Int
deriving Repr, DecidableEq

/-- Survey payload accepted by `POST /api/surveys` (`insertSurveySchema`);
absent optional fields take the schema column defaults. -/
structure SurveyInput where
  title : String
  description : Option String
  status : Option String
  anonymous : Option Bool
  multipleResponses : Option Bool
deriving Repr, DecidableEq

/-- Route `POST /api/surveys`: insert the survey (ownerId forced to the caller, id
and shareToken freshly generated — passed here as `sid`/`tok`), then insert
each question of the body with `order` forced to its index in the array
(`insertQuestionSchema.parse({ ...q, order: index })`). -/
def postSurveyRoute (db : DB) (userId : String) (body : SurveyInput)
    (qs : Option (List QuestionInput)) (sid tok : String) (qid : Nat → String)
    (now : Nat) : DB :=
  let s : Survey :=
    { id := sid, title := body.title, description := body.description
      createdBy := userId, status := body.status.getD "draft"
      anonymous := body.anonymous.getD true
      multipleResponses := body.multipleResponses.getD false
      shareToken := tok, createdAt := now, updatedAt := now }
  let db1 := { db with surveys := db.surveys ++ [s] }
  match qs with
  | none => db1
  | some l =>
    { db1 with questions := db1.questions ++ l.enum.map (fun p =>
        { id := qid p.1, surveyId := sid, text := p.2.text, type := p.2.type
          required := p.2.required, options := p.2.options
          order := (p.1 : Int), createdAt := now }) }

/-- JavaScript `x || null` on an optional string field: an absent value or a
falsy value (the empty string) becomes null. -/
def jsOrNull (o : Option String) : Option String :=
  match o with
  | none => none
  | some s => if s == "" then none else some s

/-- One element of `req.body.answers` in
`POST /api/public/surveys/:shareToken/responses`. -/
structure AnswerInput where
  questionId : String
  value : String
deriving Repr, DecidableEq

/-- Body of `POST /api/public/surveys/:shareToken/responses`. -/
structure ResponseBody where
  respondentId : Option String
  answers : Option (List AnswerInput)
deriving Repr, DecidableEq

/-- Outcome reported to the caller of a submission. -/
inductive Outcome where
  | ok (msg : String)
  | notFound (msg : String)
  | serverError (msg : String)
deriving Repr, DecidableEq

/-- Route `POST /api/public/surveys/:shareToken/responses`.  The route resolves the
survey by token (404 unless present and active), creates the Response row
immediately — with `respondentId: req.body.respondentId || null` — and then
creates one Answer row per payload entry via `Promise.all`.  There is no
transaction: `failAt i` says whether the persistence layer fails the i-th
`createAnswer`; answers whose insert succeeds are persisted even when another
insert fails, in which case the caller sees a 500 while the Response row and
the successful Answer rows remain.  The route performs no required-question
validation.  `rid` / `aid` are the generated ids, `now` the timestamp. -/
def postPublicResponse (db : DB) (tok : String) (body : ResponseBody)
    (rid : String) (aid : Nat → String) (now : Nat) (failAt : Nat → Bool) :
    Outcome × DB :=
  match getSurveyByShareToken db tok with
  | none => (.notFound "Survey not found or inactive", db)
  | some s =>
    if s.status == "active" then
      let resp : Response :=
        { id := rid, surveyId := s.id, respondentId := jsOrNull body.respondentId, createdAt := now }
      let db1 := { db with responses := db.responses ++ [resp] }
      match body.answers with
      | none => (.ok "Response submitted successfully", db1)
      | some l =>
        let created := l.enum.filterMap (fun p =>
          if failAt p.1 then none
          else some { id := aid p.1, responseId := rid, questionId := p.2.questionId
                      value := p.2.value, createdAt := now : Answer })
        let db2 := { db1 with answers := db1.answers ++ created }
        if l.enum.any (fun p => failAt p.1) then
          (.serverError "Failed to submit response", db2)
        else (.ok "Response submitted successfully", db2)
    else (.notFound "Survey not found or inactive", db)

/-! ### JavaScript plain objects used as count maps

`getQuestionAnalytics` builds `optionCounts` / `ratingCounts` as plain JS
objects.  We model such an object as an insertion-ordered association list
with unique keys.  `Object.entries` enumerates own string keys the way
ECMAScript `OrdinaryOwnPropertyKeys` does: keys that are canonical array
indices (the decimal representation of some n < 2^32 - 1) first, in
ascending numeric order, then all remaining keys in insertion order. -/

/-- JS `m.hasOwnProperty(k)`. -/
def jsHasOwn (m : List (String × Nat)) (k : String) : Bool :=
  m.any (fun p => p.1 == k)

/-- JS `m[k]` read (0 when absent; only used on present keys). -/
def jsGetD (m : List (String × Nat)) (k : String) : Nat :=
  match m.find? (fun p => p.1 == k) with
  | some p => p.2
  | none => 0

/-- JS `m[k] = v`: overwrite in place when the key exists, else append. -/
def jsSet (m : List (String × Nat)) (k : String) (v : Nat) : List (String × Nat) :=
  if jsHasOwn m k then m.map (fun p => if p.1 == k then (k, v) else p)
  else m ++ [(k, v)]

/-- Value of a decimal digit character, if it is one. -/
def decDigit (c : Char) : Option Nat :=
  if 48 ≤ c.toNat ∧ c.toNat ≤ 57 then some (c.toNat - 48) else none

/-- Accumulate a decimal numeral; `none` on any non-digit. -/
def parseNatAux : List Char → Nat → Option Nat
  | [], acc => some acc
  | c :: cs, acc =>
    match decDigit c with
    | some d => parseNatAux cs (acc * 10 + d)
    | none => none

/-- Parse a nonempty all-digit string. -/
def parseNat : List Char → Option Nat
  | [] => none
  | cs => parseNatAux cs 0

/-- Whether a string is a canonical array-index key: the decimal numeral of
some n with n < 2^32 - 1 (all digits, no leading zero except `"0"`
itself, no sign). -/
def jsIsArrayIndex (s : String) : Bool :=
  match parseNat s.data with
  | some n => (s == "0" || !(s.data.head? == some '0')) && n < 4294967295
  | none => false

/-- Numeric value of an array-index key (0 for others; only used on
array-index keys). -/
def jsKeyNum (s : String) : Nat := (parseNat s.data).getD 0

/-- Ordering of array-index entries inside `Object.entries`. -/
def jsEntryLe (p q : String × Nat) : Prop := jsKeyNum p.1 ≤ jsKeyNum q.1

instance : DecidableRel jsEntryLe := fun p q =>
  inferInstanceAs (Decidable (jsKeyNum p.1 ≤ jsKeyNum q.1))

instance : IsTotal (String × Nat) jsEntryLe := ⟨fun p q => Nat.le_total (jsKeyNum p.1) (jsKeyNum q.1)⟩

instance : IsTrans (String × Nat) jsEntryLe := ⟨fun _ _ _ h h' => le_trans h h'⟩

/-- JS `Object.entries m`: array-index keys in ascending numeric order first,
then the remaining keys in insertion order. -/
def jsEntries (m : List (String × Nat)) : List (String × Nat) :=
  List.insertionSort jsEntryLe (m.filter (fun p => jsIsArrayIndex p.1))
    ++ m.filter (fun p => !(jsIsArrayIndex p.1))

/-! ### Client analytics (`getQuestionAnalytics`, survey-analytics page) -/

/-- One entry of the multiple-choice chart data:
`{ name: truncated option, value: count, fullName: option }`. -/
structure ChartEntry where
  name : String
  value : Nat
  fullName : String
deriving Repr, DecidableEq

/-- JS `option.length > 20 ? option.slice(0, 20) + "..." : option`. -/
def truncateName (o : String) : String :=
  if o.length > 20 then (o.take 20).append "..." else o

/-- JS `keys.forEach(k => counts[k] = 0)` starting from `{}`. -/
def initCounts (keys : List String) : List (String × Nat) :=
  keys.foldl (fun m k => jsSet m k 0) []

/-- JS `if (counts.hasOwnProperty(v)) counts[v]++` — bump the bucket when the
value is a declared key, silently drop it otherwise. -/
def bumpCount (m : List (String × Nat)) (v : String) : List (String × Nat) :=
  if jsHasOwn m v then jsSet m v (jsGetD m v + 1) else m

/-- Return shape of `getQuestionAnalytics`: chart entries for
multiple-choice, `{name, value}` pairs for rating, the raw value list for
text/textarea. -/
inductive Analytics where
  | chart (entries : List ChartEntry)
  | ratingChart (entries : List (String × Nat))
  | raw (values : List String)
deriving Repr, DecidableEq

/-- The keys `"1" … "10"` inserted by the rating branch's `for` loop. -/
def ratingKeys : List String := (List.range 10).map (fun i => toString (i + 1))

/-- Client `getQuestionAnalytics(question)` over the survey's full answer set
(`responseData.answers`): filter the answers down to the question, then
per question type build the distribution. -/
def getQuestionAnalytics (q : Question) (allAnswers : List Answer) : Analytics :=
  let qa := allAnswers.filter (fun a => a.questionId == q.id)
  if q.type == "multiple-choice" then
    let counts := qa.foldl (fun m a => bumpCount m a.value) (initCounts ((q.options).getD []))
    .chart ((jsEntries counts).map (fun p => ⟨truncateName p.1, p.2, p.1⟩))
  else if q.type == "rating" then
    let counts := qa.foldl (fun m a => bumpCount m a.value) (initCounts ratingKeys)
    .ratingChart (jsEntries counts)
  else .raw (qa.map (fun a => a.value))

/-- Spec-side multiple-choice aggregation, following the spec's words: "a
count per declared option, in option-declaration order", each count being
the number of the question's answers whose value equals that option.  Used
to compare the implementation against the claimed order. -/
def mcChartSpec (opts : List String) (qa : List Answer) : List ChartEntry :=
  opts.map (fun o => ⟨truncateName o, (qa.filter (fun a => a.value == o)).length, o⟩)

/-- The claimed invariant on question ordering: the `order` values of a list
of questions are exactly the multiset {0, …, N-1}. -/
def denseOrders (qs : List Question) : Prop :=
  List.Perm (qs.map (fun q => q.order)) ((List.range qs.length).map (fun n => (n : Int)))

instance (qs : List Question) : Decidable (denseOrders qs) :=
  inferInstanceAs (Decidable (List.Perm _ _))

/-! ### Concrete fixtures -/

/-- Fixture: one active survey `s1` (share token `tok1`, owner `u`) with a
single required text question `q1`. -/
def reqDB : DB :=
  { surveys := [⟨"s1", "t", none, "u", "active", true, false, "tok1", 0, 0⟩]
    questions := [⟨"q1", "s1", "Req", "text", true, none, 0, 0⟩]
    responses := []
    answers := [] }

/-- Fixture for the owner stats: user `u` owns `s1` (active) and `s2`
(draft) with 5 responses across them; another user `v` owns the active
survey `s3`. -/
def statsDB : DB :=
  { surveys :=
      [⟨"s1", "t", none, "u", "active", true, false, "tokA", 0, 0⟩,
       ⟨"s2", "t", none, "u", "draft", true, false, "tokB", 0, 0⟩,
       ⟨"s3", "t", none, "v", "active", true, false, "tokC", 0, 0⟩]
    questions := []
    responses :=
      [⟨"r1", "s1", none, 0⟩, ⟨"r2", "s1", none, 0⟩, ⟨"r3", "s2", none, 0⟩,
       ⟨"r4", "s2", none, 0⟩, ⟨"r5", "s2", none, 0⟩]
    answers := [] }

/-- Fixture: the database produced by `POST /api/surveys` on an empty store,
creating survey `s1` with three questions (route forces `order` = array
index, so orders are 0, 1, 2 and ids `q0`, `q1`, `q2`). -/
def threeQuestionDB : DB :=
  postSurveyRoute ⟨[], [], [], []⟩ "u" ⟨"t", none, none, none, none⟩
    (some [⟨"Q0", "text", false, none, 0⟩, ⟨"Q1", "text", false, none, 0⟩,
           ⟨"Q2", "text", false, none, 0⟩])
    "s1" "tok1" (fun i => "q".append (toString i)) 0

/-- C1: the public submission route performs no required-question
validation.  On `reqDB` — whose only question is required — a payload with
an empty answer list is accepted (`ok`), and afterwards one new Response row
and zero Answer rows exist: the write happened instead of the claimed
pre-write rejection. -/
theorem c1_missing_required_is_persisted :
    (postPublicResponse reqDB "tok1" ⟨none, some []⟩ "r1" (fun i => toString i) 7
        (fun _ => false)).1 = .ok "Response submitted successfully"
  ∧ (postPublicResponse reqDB "tok1" ⟨none, some []⟩ "r1" (fun i => toString i) 7
        (fun _ => false)).2.responses = [⟨"r1", "s1", none, 7⟩]
  ∧ (postPublicResponse reqDB "tok1" ⟨none, some []⟩ "r1" (fun i => toString i) 7
        (fun _ => false)).2.answers = []
  ∧ (reqDB.questions.filter (fun q => q.required)).length = 1 := by
  refine ⟨rfl, rfl, rfl, rfl⟩

/-- C2: persistence of a submission is not all-or-nothing.  On `reqDB`, a
payload with two answers where the second `createAnswer` fails (`failAt 1`)
yields a 500 to the caller while the Response row and the first Answer row
remain persisted — the caller-visible state is not "as if nothing was
written". -/
theorem c2_partial_persistence_on_answer_failure :
    postPublicResponse reqDB "tok1" ⟨none, some [⟨"q1", "hello"⟩, ⟨"q1", "x"⟩]⟩
        "r1" (fun i => "a".append (toString i)) 7 (fun n => n == 1)
      = (.serverError "Failed to submit response",
         { surveys := reqDB.surveys
           questions := reqDB.questions
           responses := [⟨"r1", "s1", none, 7⟩]
           answers := [⟨"a0", "r1", "q1", "hello", 7⟩] })
  ∧ [(⟨"r1", "s1", none, 7⟩ : Response)] ≠ reqDB.responses := by
  exact ⟨rfl, by decide⟩

/-- C3: `getSurveyStats` counts `activeSurveys` over all users.  On
`statsDB`, user `u` owns 2 surveys (1 active, 1 draft) with 5 responses, yet
the code returns `activeSurveys = 2` (it also counts `v`'s active survey,
because the chained `.where` overwrote the owner filter), while the number
of active surveys owned by `u` is 1. -/
theorem c3_activeSurveys_ignores_owner :
    (getSurveyStats statsDB "u").totalSurveys = 2
  ∧ (getSurveyStats statsDB "u").totalResponses = 5
  ∧ (getSurveyStats statsDB "u").activeSurveys = 2
  ∧ (statsDB.surveys.filter (fun s => s.createdBy == "u" && s.status == "active")).length = 1 := by
  refine ⟨rfl, rfl, rfl, rfl⟩

/-- C4: `deleteQuestion` does not re-normalise `order`.  After creating
survey `s1` with three questions (orders 0, 1, 2 — a dense sequence) and
deleting the middle one, the surviving orders are `[0, 2]`: a gap, so the
dense 0..N-1 invariant fails after a create/delete sequence. -/
theorem c4_delete_leaves_order_gap :
    denseOrders (getQuestionsBySurvey threeQuestionDB "s1")
  ∧ ((getQuestionsBySurvey (deleteQuestion threeQuestionDB "q1") "s1").map
      (fun q => q.order)) = [0, 2]
  ∧ ¬ denseOrders (getQuestionsBySurvey (deleteQuestion threeQuestionDB "q1") "s1") := by
  refine ⟨by decide, by decide, by decide⟩

/-- Fixture: a multiple-choice question whose declared options are the
numeric strings `"2"` then `"1"`, with answers `"1"`, `"1"`, `"2"`. -/
def numericOptionQuestion : Question :=
  ⟨"q1", "s1", "Pick", "multiple-choice", true, some ["2", "1"], 0, 0⟩

/-- Answers for `numericOptionQuestion`. -/
def numericOptionAnswers : List Answer :=
  [⟨"a0", "r1", "q1", "1", 0⟩, ⟨"a1", "r1", "q1", "1", 0⟩, ⟨"a2", "r2", "q1", "2", 0⟩]

/-- C5 counterexample: for declared options `["2", "1"]`, `Object.entries`
enumerates the two array-index-like keys in ascending numeric order, so the
aggregation returns the buckets as `1:2, 2:1` — not in option-declaration
order (`2:1, 1:2`) as claimed. -/
theorem c5_numeric_options_not_declaration_order :
    getQuestionAnalytics numericOptionQuestion numericOptionAnswers
      = .chart [⟨"1", 2, "1"⟩, ⟨"2", 1, "2"⟩]
  ∧ getQuestionAnalytics numericOptionQuestion numericOptionAnswers
      ≠ .chart (mcChartSpec ["2", "1"]
          (numericOptionAnswers.filter (fun a => a.questionId == numericOptionQuestion.id))) := by
  exact ⟨by decide, by decide⟩

/-- Fixture: a store holding one text question with `createdAt = 3`. -/
def oneQuestionDB : DB :=
  { surveys := [], questions := [⟨"q1", "s1", "T", "text", false, none, 0, 3⟩]
    responses := [], answers := [] }

/-- The empty partial-update payload for a question. -/
def emptyQuestionUpdates : QuestionUpdates := ⟨none, none, none, none, none⟩

/-- C8 counterexample: `updateQuestion` writes only the payload fields — the
`questions` table has no `updatedAt` column and `set(updates)` adds no
timestamp.  Updating `q1`'s text changes exactly that field (the only
timestamp, `createdAt`, stays 3), and an empty payload leaves the store
byte-for-byte unchanged: no `updatedAt` is refreshed, contrary to the
claim. -/
theorem c8_updateQuestion_refreshes_no_timestamp :
    updateQuestion oneQuestionDB "q1" ⟨some "T2", none, none, none, none⟩
      = { surveys := [], questions := [⟨"q1", "s1", "T2", "text", false, none, 0, 3⟩]
          responses := [], answers := [] }
  ∧ updateQuestion oneQuestionDB "q1" emptyQuestionUpdates = oneQuestionDB := by
  exact ⟨by decide, by decide⟩

/-- Fixture: one active survey with `anonymous = false`. -/
def identifiedSurveyDB : DB :=
  { surveys := [⟨"s1", "t", none, "u", "active", false, false, "tok1", 0, 0⟩]
    questions := [], responses := [], answers := [] }

/-- C10 counterexample: a caller-supplied `respondentId` of `""` is falsy in
JavaScript, so `req.body.respondentId || null` persists `null` instead of
the supplied empty string: the persisted value is not exactly the
caller-supplied one. -/
theorem c10_empty_respondentId_becomes_null :
    (postPublicResponse identifiedSurveyDB "tok1" ⟨some "", some []⟩ "r1"
        (fun i => toString i) 7 (fun _ => false)).1 = .ok "Response submitted successfully"
  ∧ ((postPublicResponse identifiedSurveyDB "tok1" ⟨some "", some []⟩ "r1"
        (fun i => toString i) 7 (fun _ => false)).2.responses.map
      (fun r => r.respondentId)) = [none]
  ∧ (some "" : Option String) ≠ none := by
  refine ⟨rfl, rfl, by decide⟩

/-! ### Helper lemmas -/

theorem filter_head?_mem {α : Type} {p : α → Bool} {l : List α} {a : α}
    (h : (l.filter p).head? = some a) : a ∈ l ∧ p a = true := by
  have ha : a ∈ l.filter p := by
    cases hf : l.filter p with
    | nil => rw [hf] at h; cases h
    | cons b t =>
      rw [hf] at h
      have hb : b = a := Option.some.inj h
      rw [hb]
      exact List.mem_cons_self a t
  exact (List.mem_filter).1 ha

theorem filter_head?_none {α : Type} {p : α → Bool} {l : List α}
    (h : ∀ a ∈ l, ¬ p a = true) : (l.filter p).head? = none := by
  rw [List.head?_eq_none_iff]
  exact List.filter_eq_nil_iff.2 h

/-- With globally unique share tokens, two stored surveys carrying the same
token are the same row. -/
theorem shareToken_inj {db : DB} (hU : (db.surveys.map (fun s => s.shareToken)).Nodup)
    {a b : Survey} (ha : a ∈ db.surveys) (hb : b ∈ db.surveys)
    (h : a.shareToken = b.shareToken) : a = b :=
  List.inj_on_of_nodup_map hU ha hb h

instance {ε α : Type} [DecidableEq ε] [DecidableEq α] : DecidableEq (Except ε α) :=
  fun a b =>
    match a, b with
    | .ok x, .ok y =>
      if h : x = y then isTrue (by rw [h]) else isFalse (fun he => h (Except.ok.inj he))
    | .error x, .error y =>
      if h : x = y then isTrue (by rw [h]) else isFalse (fun he => h (Except.error.inj he))
    | .ok _, .error _ => isFalse (fun he => by cases he)
    | .error _, .ok _ => isFalse (fun he => by cases he)

theorem byShareToken_some {db : DB} {tok : String} {s : Survey}
    (h : getSurveyByShareToken db tok = some s) :
    s ∈ db.surveys ∧ s.shareToken = tok := by
  obtain ⟨hm, hp⟩ := filter_head?_mem h
  exact ⟨hm, by simpa using hp⟩

theorem byShareToken_none {db : DB} {tok : String}
    (h : getSurveyByShareToken db tok = none) :
    ∀ s ∈ db.surveys, s.shareToken ≠ tok := by
  intro s hs ht
  have hnil : db.surveys.filter (fun s => s.shareToken == tok) = [] :=
    List.head?_eq_none_iff.1 h
  have : s ∈ ([] : List Survey) := hnil ▸ (List.mem_filter.2 ⟨hs, by simp [ht]⟩)
  cases this

theorem publicRoute_of_none {db : DB} {tok : String}
    (h : getSurveyByShareToken db tok = none) :
    getPublicSurveyRoute db tok = .error (.notFound "Survey not found or inactive") := by
  unfold getPublicSurveyRoute
  rw [h]

theorem publicRoute_of_active {db : DB} {tok : String} {s : Survey}
    (h : getSurveyByShareToken db tok = some s) (ha : s.status = "active") :
    getPublicSurveyRoute db tok = .ok (s, getQuestionsBySurvey db s.id) := by
  unfold getPublicSurveyRoute
  rw [h]
  simp [ha]

theorem publicRoute_of_inactive {db : DB} {tok : String} {s : Survey}
    (h : getSurveyByShareToken db tok = some s) (ha : ¬ s.status = "active") :
    getPublicSurveyRoute db tok = .error (.notFound "Survey not found or inactive") := by
  unfold getPublicSurveyRoute
  rw [h]
  simp [ha]

/-- C6: the public fetch succeeds iff a survey with the given share token
exists and is `active` (share tokens are unique by schema constraint);
every failure is a NotFound; on success the returned survey carries the
token, is active, and comes with exactly its questions sorted by `order`
ascending. -/
theorem c6_public_fetch_active_gate (db : DB) (tok : String)
    (hU : (db.surveys.map (fun s => s.shareToken)).Nodup) :
    ((∃ p, getPublicSurveyRoute db tok = .ok p)
        ↔ ∃ s ∈ db.surveys, s.shareToken = tok ∧ s.status = "active")
  ∧ (∀ s qs, getPublicSurveyRoute db tok = .ok (s, qs) →
      s ∈ db.surveys ∧ s.shareToken = tok ∧ s.status = "active"
      ∧ List.Perm qs (db.questions.filter (fun q => q.surveyId == s.id))
      ∧ List.Sorted qle qs)
  ∧ (∀ e, getPublicSurveyRoute db tok = .error e → ∃ m, e = .notFound m) := by
  cases hh : getSurveyByShareToken db tok with
  | none =>
    rw [publicRoute_of_none hh]
    refine ⟨⟨?_, ?_⟩, ?_, ?_⟩
    · rintro ⟨p, hp⟩
      cases hp
    · rintro ⟨s, hs, ht, _⟩
      exact absurd ht (byShareToken_none hh s hs)
    · intro s qs h
      cases h
    · intro e he
      refine ⟨"Survey not found or inactive", ?_⟩
      cases he
      rfl
  | some s0 =>
    obtain ⟨hmem, htok⟩ := byShareToken_some hh
    by_cases hact : s0.status = "active"
    · rw [publicRoute_of_active hh hact]
      refine ⟨⟨?_, ?_⟩, ?_, ?_⟩
      · intro
        exact ⟨s0, hmem, htok, hact⟩
      · intro
        exact ⟨_, rfl⟩
      · intro s qs h
        have h1 : s0 = s := congrArg Prod.fst (Except.ok.inj h)
        have h2 : getQuestionsBySurvey db s0.id = qs := congrArg Prod.snd (Except.ok.inj h)
        subst h1
        subst h2
        exact ⟨hmem, htok, hact, List.perm_insertionSort qle _, List.sorted_insertionSort qle _⟩
      · intro e he
        cases he
    · rw [publicRoute_of_inactive hh hact]
      refine ⟨⟨?_, ?_⟩, ?_, ?_⟩
      · rintro ⟨p, hp⟩
        cases hp
      · rintro ⟨s, hs, ht, hact'⟩
        have heq : s = s0 := shareToken_inj hU hs hmem (ht.trans htok.symm)
        exact absurd (heq ▸ hact') hact
      · intro s qs h
        cases h
      · intro e he
        refine ⟨"Survey not found or inactive", ?_⟩
        cases he
        rfl

/-- Closed witness for the C6 theorem: on `reqDB` (unique tokens) the fetch
with `tok1` succeeds. -/
theorem c6_public_fetch_active_gate_witness :
    ∃ s ∈ reqDB.surveys, s.shareToken = "tok1" ∧ s.status = "active" :=
  (c6_public_fetch_active_gate reqDB "tok1" (by decide)).1.1
    ⟨(⟨"s1", "t", none, "u", "active", true, false, "tok1", 0, 0⟩,
      getQuestionsBySurvey reqDB "s1"), by decide⟩

theorem getSurvey_deleteSurvey (db : DB) (id : String) :
    getSurvey (deleteSurvey db id) id = none := by
  apply filter_head?_none
  intro t ht
  have := (List.mem_filter.1 ht).2
  simp only [Bool.not_eq_eq_eq_not, Bool.not_true, beq_eq_false_iff_ne] at this
  simp [this]

/-- C7: deleting a survey removes (by the schema's cascades) all of its
questions, all of its responses, and every answer attached to one of those
responses or questions; afterwards, with share tokens unique, both the
owner-mode fetch by the survey's id and the public fetch by its former share
token answer NotFound. -/
theorem c7_delete_survey_cascades (db : DB) (s : Survey) (hs : s ∈ db.surveys)
    (hU : (db.surveys.map (fun t => t.shareToken)).Nodup) :
    (∀ q ∈ db.questions, q.surveyId = s.id → q ∉ (deleteSurvey db s.id).questions)
  ∧ (∀ r ∈ db.responses, r.surveyId = s.id → r ∉ (deleteSurvey db s.id).responses)
  ∧ (∀ a ∈ db.answers,
      ((∃ r ∈ db.responses, r.surveyId = s.id ∧ a.responseId = r.id)
        ∨ (∃ q ∈ db.questions, q.surveyId = s.id ∧ a.questionId = q.id))
      → a ∉ (deleteSurvey db s.id).answers)
  ∧ getSurvey (deleteSurvey db s.id) s.id = none
  ∧ getSurveyByShareToken (deleteSurvey db s.id) s.shareToken = none
  ∧ (∀ u, getSurveyRoute (deleteSurvey db s.id) u s.id
      = .error (.notFound "Survey not found"))
  ∧ getPublicSurveyRoute (deleteSurvey db s.id) s.shareToken
      = .error (.notFound "Survey not found or inactive") := by
  have htokNone : getSurveyByShareToken (deleteSurvey db s.id) s.shareToken = none := by
    apply filter_head?_none
    intro t ht hbeq
    have hmem := List.mem_filter.1 ht
    have htdb : t ∈ db.surveys := hmem.1
    have htid : t.id ≠ s.id := by
      have := hmem.2
      simp only [Bool.not_eq_eq_eq_not, Bool.not_true, beq_eq_false_iff_ne] at this
      exact this
    have : t = s := shareToken_inj hU htdb hs (by simpa using hbeq)
    exact htid (congrArg Survey.id this)
  refine ⟨?_, ?_, ?_, getSurvey_deleteSurvey db s.id, htokNone, ?_, ?_⟩
  · intro q hq hqs hq'
    have := (List.mem_filter.1 hq').2
    simp [hqs] at this
  · intro r hr hrs hr'
    have := (List.mem_filter.1 hr').2
    simp [hrs] at this
  · intro a ha hsrc ha'
    have hpred := (List.mem_filter.1 ha').2
    simp only [Bool.not_eq_eq_eq_not, Bool.not_true, Bool.or_eq_false_iff] at hpred
    obtain ⟨hr, hq⟩ := hpred
    rcases hsrc with ⟨r, hrdb, hrs, hrid⟩ | ⟨q, hqdb, hqs, hqid⟩
    · have : (db.responses.filter (fun r => r.surveyId == s.id)).any
          (fun r => r.id == a.responseId) = true := by
        rw [List.any_eq_true]
        exact ⟨r, List.mem_filter.2 ⟨hrdb, by simp [hrs]⟩, by simp [hrid]⟩
      rw [this] at hr
      cases hr
    · have : (db.questions.filter (fun q => q.surveyId == s.id)).any
          (fun q => q.id == a.questionId) = true := by
        rw [List.any_eq_true]
        exact ⟨q, List.mem_filter.2 ⟨hqdb, by simp [hqs]⟩, by simp [hqid]⟩
      rw [this] at hq
      cases hq
  · intro u
    unfold getSurveyRoute
    rw [getSurvey_deleteSurvey db s.id]
  · exact publicRoute_of_none htokNone

/-- Closed witness for the C7 theorem: deleting `s1` from `reqDB` removes its
required question `q1`. -/
theorem c7_delete_survey_cascades_witness :
    (⟨"q1", "s1", "Req", "text", true, none, 0, 0⟩ : Question)
      ∉ (deleteSurvey reqDB "s1").questions :=
  (c7_delete_survey_cascades reqDB ⟨"s1", "t", none, "u", "active", true, false, "tok1", 0, 0⟩
      (by decide) (by decide)).1
    ⟨"q1", "s1", "Req", "text", true, none, 0, 0⟩ (by decide) rfl

/-! ### Lemmas on the JS count-object model -/

theorem jsHasOwn_map_keys (K : List String) (c : String → Nat) (v : String) :
    jsHasOwn (K.map (fun k => (k, c k))) v = K.any (fun k => k == v) := by
  unfold jsHasOwn
  induction K with
  | nil => rfl
  | cons k K ih => simp only [List.map_cons, List.any_cons, ih]

theorem jsGetD_map_keys (K : List String) (c : String → Nat) (v : String) (hv : v ∈ K) :
    jsGetD (K.map (fun k => (k, c k))) v = c v := by
  unfold jsGetD
  induction K with
  | nil => cases hv
  | cons k K ih =>
    by_cases hk : k = v
    · subst hk
      simp [List.find?_cons]
    · have hv' : v ∈ K := by
        cases hv with
        | head => exact absurd rfl hk
        | tail _ h => exact h
      have hne : (k == v) = false := by simp [hk]
      simp only [List.map_cons, List.find?_cons, hne]
      exact ih hv'

theorem jsSet_map_keys (K : List String) (c : String → Nat) (v : String)
    (hv : v ∈ K) (n : Nat) :
    jsSet (K.map (fun k => (k, c k))) v n
      = K.map (fun k => (k, if k = v then n else c k)) := by
  unfold jsSet
  rw [jsHasOwn_map_keys]
  have hany : K.any (fun k => k == v) = true := List.any_eq_true.2 ⟨v, hv, by simp⟩
  rw [hany, if_pos rfl, List.map_map]
  apply List.map_congr_left
  intro k _
  by_cases hkv : k = v
  · subst hkv
    simp
  · simp [hkv]

theorem bumpCount_map_keys_mem (K : List String) (c : String → Nat) (v : String)
    (hv : v ∈ K) :
    bumpCount (K.map (fun k => (k, c k))) v
      = K.map (fun k => (k, if k = v then c v + 1 else c k)) := by
  unfold bumpCount
  rw [jsHasOwn_map_keys]
  have hany : K.any (fun k => k == v) = true := List.any_eq_true.2 ⟨v, hv, by simp⟩
  rw [hany, if_pos rfl, jsGetD_map_keys K c v hv, jsSet_map_keys K c v hv]

theorem bumpCount_map_keys_not_mem (K : List String) (c : String → Nat) (v : String)
    (hv : v ∉ K) :
    bumpCount (K.map (fun k => (k, c k))) v = K.map (fun k => (k, c k)) := by
  unfold bumpCount
  rw [jsHasOwn_map_keys]
  have hany : K.any (fun k => k == v) = false := by
    rw [List.any_eq_false]
    intro k hk
    simp only [beq_iff_eq]
    intro hkv
    exact hv (hkv ▸ hk)
  rw [hany]
  simp

/-- Folding the `hasOwnProperty`-guarded bump over a value list turns each
declared bucket's count into the number of values equal to that bucket;
values outside the declared keys change nothing. -/
theorem foldl_bumpCount_map (K : List String) :
    ∀ (vs : List String) (c : String → Nat),
      vs.foldl bumpCount (K.map (fun k => (k, c k)))
        = K.map (fun k => (k, c k + (vs.filter (fun v => v == k)).length)) := by
  intro vs
  induction vs with
  | nil =>
    intro c
    simp
  | cons v vs ih =>
    intro c
    rw [List.foldl_cons]
    by_cases hv : v ∈ K
    · rw [bumpCount_map_keys_mem K c v hv, ih]
      apply List.map_congr_left
      intro k _
      by_cases hkv : k = v
      · subst hkv
        simp only [List.filter_cons, beq_self_eq_true, if_true, ite_true, List.length_cons,
          Prod.mk.injEq, true_and]
        omega
      · have : (v == k) = false := by simp [Ne.symm hkv]
        simp only [List.filter_cons, this, if_neg hkv, Bool.false_eq_true, if_false]
    · rw [bumpCount_map_keys_not_mem K c v hv, ih]
      apply List.map_congr_left
      intro k hk
      have : (v == k) = false := by
        simp only [beq_eq_false_iff_ne, ne_eq]
        intro hvk
        exact hv (hvk ▸ hk)
      simp only [List.filter_cons, this, Bool.false_eq_true, if_false]

theorem jsSet_append_not_mem (m : List (String × Nat)) (k : String) (v : Nat)
    (h : jsHasOwn m k = false) : jsSet m k v = m ++ [(k, v)] := by
  unfold jsSet
  simp [h]

theorem foldl_jsSet_zero (K : List String) :
    ∀ (acc : List (String × Nat)), K.Nodup → (∀ k ∈ K, jsHasOwn acc k = false) →
      K.foldl (fun m k => jsSet m k 0) acc = acc ++ K.map (fun k => (k, 0)) := by
  induction K with
  | nil =>
    intro acc _ _
    simp
  | cons k K ih =>
    intro acc hnd hacc
    rw [List.foldl_cons, jsSet_append_not_mem acc k 0 (hacc k (List.mem_cons_self k K)),
      ih (acc ++ [(k, 0)]) (List.nodup_cons.1 hnd).2 ?_, List.append_assoc]
    · simp
    · intro k' hk'
      have h1 := hacc k' (List.mem_cons_of_mem k hk')
      have h2 : (k == k') = false := by
        simp only [beq_eq_false_iff_ne, ne_eq]
        intro hkk
        exact (List.nodup_cons.1 hnd).1 (hkk ▸ hk')
      unfold jsHasOwn at h1 ⊢
      simp [List.any_append, h1, h2]

/-- When the declared keys are distinct, initialising the count object gives
one zero bucket per key, in declaration order. -/
theorem initCounts_eq_map (K : List String) (hK : K.Nodup) :
    initCounts K = K.map (fun k => (k, 0)) := by
  have := foldl_jsSet_zero K [] hK (fun _ _ => rfl)
  simpa [initCounts] using this

/-- JS `Object.entries` on an object none of whose keys is array-index-like is
the insertion order. -/
theorem jsEntries_no_numeric (m : List (String × Nat))
    (h : ∀ p ∈ m, jsIsArrayIndex p.1 = false) : jsEntries m = m := by
  unfold jsEntries
  have h1 : m.filter (fun p => jsIsArrayIndex p.1) = [] := by
    rw [List.filter_eq_nil_iff]
    intro p hp
    simp [h p hp]
  have h2 : m.filter (fun p => !(jsIsArrayIndex p.1)) = m := by
    rw [List.filter_eq_self]
    intro p hp
    simp [h p hp]
  rw [h1, h2]
  rfl

/-- JS `Object.entries` on an object all of whose keys are array-index-like and
already in ascending numeric order is the insertion order as well. -/
theorem jsEntries_all_numeric_sorted (m : List (String × Nat))
    (h : ∀ p ∈ m, jsIsArrayIndex p.1 = true) (hs : List.Sorted jsEntryLe m) :
    jsEntries m = m := by
  unfold jsEntries
  have h1 : m.filter (fun p => jsIsArrayIndex p.1) = m := by
    rw [List.filter_eq_self]
    intro p hp
    simp [h p hp]
  have h2 : m.filter (fun p => !(jsIsArrayIndex p.1)) = [] := by
    rw [List.filter_eq_nil_iff]
    intro p hp
    simp [h p hp]
  rw [h1, h2, List.Sorted.insertionSort_eq hs, List.append_nil]

/-- Filtering a projected value list matches filtering the records. -/
theorem filter_values_length (l : List Answer) (k : String) :
    ((l.map (fun a => a.value)).filter (fun v => v == k)).length
      = (l.filter (fun a => a.value == k)).length := by
  rw [List.filter_map]
  rw [List.length_map]
  rfl

/-- C9: for a rating question, the analytics are exactly the ten buckets
`"1"` … `"10"`, in that order, the bucket for `i` counting the question's
answers whose value is the decimal string of `i`; answers with any other
value are dropped.  With zero answers every bucket is present with count
0. -/
theorem c9_rating_buckets (q : Question) (ans : List Answer) (h : q.type = "rating") :
    getQuestionAnalytics q ans
      = .ratingChart ((List.range 10).map (fun i =>
          (toString (i + 1),
           ((ans.filter (fun a => a.questionId == q.id)).filter
              (fun a => a.value == toString (i + 1))).length))) := by
  unfold getQuestionAnalytics
  have hmc : (q.type == "multiple-choice") = false := by simp [h]
  have hrt : (q.type == "rating") = true := by simp [h]
  simp only [hmc, Bool.false_eq_true, if_false, hrt, if_true]
  have hinit : initCounts ratingKeys = ratingKeys.map (fun k => (k, (fun _ => 0) k)) := by decide
  rw [hinit]
  set qa := ans.filter (fun a => a.questionId == q.id) with hqa
  have hfold : qa.foldl (fun m a => bumpCount m a.value) (ratingKeys.map (fun k => (k, (fun _ => 0) k)))
      = (qa.map (fun a => a.value)).foldl bumpCount (ratingKeys.map (fun k => (k, (fun _ => 0) k))) := by
    rw [List.foldl_map]
  rw [hfold, foldl_bumpCount_map ratingKeys (qa.map (fun a => a.value)) (fun _ => 0)]
  have hcnt : ratingKeys.map (fun k => (k, (fun _ => 0) k + ((qa.map (fun a => a.value)).filter (fun v => v == k)).length))
      = ratingKeys.map (fun k => (k, (qa.filter (fun a => a.value == k)).length)) := by
    apply List.map_congr_left
    intro k _
    rw [filter_values_length qa k]
    simp
  rw [hcnt]
  have hnum : ∀ p ∈ ratingKeys.map (fun k => (k, (qa.filter (fun a => a.value == k)).length)),
      jsIsArrayIndex p.1 = true := by
    intro p hp
    obtain ⟨k, hk, hkp⟩ := List.mem_map.1 hp
    have hkidx : ∀ k' ∈ ratingKeys, jsIsArrayIndex k' = true := by decide
    rw [← hkp]
    exact hkidx k hk
  have hsorted : List.Sorted jsEntryLe
      (ratingKeys.map (fun k => (k, (qa.filter (fun a => a.value == k)).length))) := by
    rw [List.Sorted, List.pairwise_map]
    have hbase : ratingKeys.Pairwise (fun a b => jsKeyNum a ≤ jsKeyNum b) := by decide
    exact hbase.imp (fun hab => hab)
  rw [jsEntries_all_numeric_sorted _ hnum hsorted]
  unfold ratingKeys
  rw [List.map_map]
  rfl

/-- Closed witness for the C9 theorem: with zero responses all ten buckets
are present with count 0. -/
theorem c9_rating_buckets_witness :
    getQuestionAnalytics ⟨"qr", "s1", "Rate", "rating", false, none, 0, 0⟩ []
      = .ratingChart [("1", 0), ("2", 0), ("3", 0), ("4", 0), ("5", 0),
          ("6", 0), ("7", 0), ("8", 0), ("9", 0), ("10", 0)] := by
  have h := c9_rating_buckets ⟨"qr", "s1", "Rate", "rating", false, none, 0, 0⟩ [] rfl
  rw [h]
  decide

/-- C5 (amended): for a multiple-choice question whose declared options are
pairwise distinct and none of which is an array-index-like numeral string,
the analytics are one bucket per declared option in declaration order, each
bucket counting the question's answers whose value equals that option;
answer values matching no declared option are dropped silently. -/
theorem c5_mc_declared_buckets (q : Question) (ans : List Answer) (opts : List String)
    (hty : q.type = "multiple-choice") (hop : q.options = some opts)
    (hnd : opts.Nodup) (hnum : ∀ o ∈ opts, jsIsArrayIndex o = false) :
    getQuestionAnalytics q ans
      = .chart (mcChartSpec opts (ans.filter (fun a => a.questionId == q.id))) := by
  unfold getQuestionAnalytics
  have hmc : (q.type == "multiple-choice") = true := by simp [hty]
  simp only [hmc, if_true]
  rw [hop]
  set qa := ans.filter (fun a => a.questionId == q.id) with hqa
  have hinit : (some opts).getD [] = opts := rfl
  rw [hinit]
  have hinit2 : initCounts opts = opts.map (fun k => (k, (fun _ => 0) k)) :=
    initCounts_eq_map opts hnd
  rw [hinit2]
  have hfold : qa.foldl (fun m a => bumpCount m a.value) (opts.map (fun k => (k, (fun _ => 0) k)))
      = (qa.map (fun a => a.value)).foldl bumpCount (opts.map (fun k => (k, (fun _ => 0) k))) := by
    rw [List.foldl_map]
  rw [hfold, foldl_bumpCount_map opts (qa.map (fun a => a.value)) (fun _ => 0)]
  have hcnt : opts.map (fun k => (k, (fun _ => 0) k + ((qa.map (fun a => a.value)).filter (fun v => v == k)).length))
      = opts.map (fun k => (k, (qa.filter (fun a => a.value == k)).length)) := by
    apply List.map_congr_left
    intro k _
    rw [filter_values_length qa k]
    simp
  rw [hcnt]
  have hnn : ∀ p ∈ opts.map (fun k => (k, (qa.filter (fun a => a.value == k)).length)),
      jsIsArrayIndex p.1 = false := by
    intro p hp
    obtain ⟨k, hk, hkp⟩ := List.mem_map.1 hp
    rw [← hkp]
    exact hnum k hk
  rw [jsEntries_no_numeric _ hnn, List.map_map]
  rfl

/-- Closed witness for the amended C5 theorem: options `["A", "B"]` with
answers `A, A, B, C` aggregate to `A:2, B:1` (`C` dropped). -/
theorem c5_mc_declared_buckets_witness :
    getQuestionAnalytics ⟨"q2", "s1", "AB", "multiple-choice", true, some ["A", "B"], 0, 0⟩
        [⟨"a0", "r1", "q2", "A", 0⟩, ⟨"a1", "r1", "q2", "A", 0⟩,
         ⟨"a2", "r2", "q2", "B", 0⟩, ⟨"a3", "r2", "q2", "C", 0⟩]
      = .chart [⟨"A", 2, "A"⟩, ⟨"B", 1, "B"⟩] := by
  have h := c5_mc_declared_buckets
    ⟨"q2", "s1", "AB", "multiple-choice", true, some ["A", "B"], 0, 0⟩
    [⟨"a0", "r1", "q2", "A", 0⟩, ⟨"a1", "r1", "q2", "A", 0⟩,
     ⟨"a2", "r2", "q2", "B", 0⟩, ⟨"a3", "r2", "q2", "C", 0⟩]
    ["A", "B"] rfl rfl (by decide) (by decide)
  rw [h]
  decide

/-- C8 (amended): `updateSurvey` and `updateQuestion` both apply merge
semantics — every field not present in the partial payload keeps its
previous value, and rows with a different id are untouched — and
`updateSurvey` refreshes `updatedAt`; `updateQuestion` refreshes nothing
beyond the payload (the `questions` table has no `updatedAt` column, and its
only timestamp, `createdAt`, is preserved; an empty payload is the
identity). -/
theorem c8_partial_update_merge (db : DB) (id : String) (u : SurveyUpdates)
    (v : QuestionUpdates) (now : Nat) (s : Survey) (q : Question) :
    (applySurveyUpdates s u now).updatedAt = now
  ∧ (u.title = none → (applySurveyUpdates s u now).title = s.title)
  ∧ (u.description = none → (applySurveyUpdates s u now).description = s.description)
  ∧ (u.status = none → (applySurveyUpdates s u now).status = s.status)
  ∧ (u.anonymous = none → (applySurveyUpdates s u now).anonymous = s.anonymous)
  ∧ (u.multipleResponses = none →
      (applySurveyUpdates s u now).multipleResponses = s.multipleResponses)
  ∧ (applySurveyUpdates s u now).id = s.id
  ∧ (applySurveyUpdates s u now).createdBy = s.createdBy
  ∧ (applySurveyUpdates s u now).shareToken = s.shareToken
  ∧ (applySurveyUpdates s u now).createdAt = s.createdAt
  ∧ (v.text = none → (applyQuestionUpdates q v).text = q.text)
  ∧ (v.type = none → (applyQuestionUpdates q v).type = q.type)
  ∧ (v.required = none → (applyQuestionUpdates q v).required = q.required)
  ∧ (v.options = none → (applyQuestionUpdates q v).options = q.options)
  ∧ (v.order = none → (applyQuestionUpdates q v).order = q.order)
  ∧ (applyQuestionUpdates q v).id = q.id
  ∧ (applyQuestionUpdates q v).surveyId = q.surveyId
  ∧ (applyQuestionUpdates q v).createdAt = q.createdAt
  ∧ applyQuestionUpdates q emptyQuestionUpdates = q
  ∧ (∀ t ∈ db.surveys, t.id ≠ id → t ∈ (updateSurvey db id u now).surveys)
  ∧ (∀ p ∈ db.questions, p.id ≠ id → p ∈ (updateQuestion db id v).questions) := by
  refine ⟨rfl, ?_, ?_, ?_, ?_, ?_, rfl, rfl, rfl, rfl, ?_, ?_, ?_, ?_, ?_, rfl, rfl, rfl,
    rfl, ?_, ?_⟩
  · intro h; simp [applySurveyUpdates, h]
  · intro h; simp [applySurveyUpdates, h]
  · intro h; simp [applySurveyUpdates, h]
  · intro h; simp [applySurveyUpdates, h]
  · intro h; simp [applySurveyUpdates, h]
  · intro h; simp [applyQuestionUpdates, h]
  · intro h; simp [applyQuestionUpdates, h]
  · intro h; simp [applyQuestionUpdates, h]
  · intro h; simp [applyQuestionUpdates, h]
  · intro h; simp [applyQuestionUpdates, h]
  · intro t ht hne
    refine List.mem_map.2 ⟨t, ht, ?_⟩
    simp [hne]
  · intro p hp hne
    refine List.mem_map.2 ⟨p, hp, ?_⟩
    simp [hne]

/-- Closed witness for the C8 theorem: a payload setting only the title
refreshes `updatedAt` to 9 and keeps the status, and an empty question
payload is the identity on a concrete question. -/
theorem c8_partial_update_merge_witness :
    (applySurveyUpdates ⟨"s1", "t", none, "u", "draft", true, false, "tok1", 0, 0⟩
        ⟨some "t2", none, none, none, none⟩ 9).updatedAt = 9
  ∧ (applySurveyUpdates ⟨"s1", "t", none, "u", "draft", true, false, "tok1", 0, 0⟩
        ⟨some "t2", none, none, none, none⟩ 9).status = "draft"
  ∧ applyQuestionUpdates ⟨"q1", "s1", "T", "text", false, none, 0, 3⟩
        emptyQuestionUpdates = ⟨"q1", "s1", "T", "text", false, none, 0, 3⟩ := by
  have h := c8_partial_update_merge ⟨[], [], [], []⟩ "s1"
    ⟨some "t2", none, none, none, none⟩ emptyQuestionUpdates 9
    ⟨"s1", "t", none, "u", "draft", true, false, "tok1", 0, 0⟩
    ⟨"q1", "s1", "T", "text", false, none, 0, 3⟩
  exact ⟨h.1, h.2.2.2.1 rfl, h.2.2.2.2.2.2.2.2.2.2.2.2.2.2.2.2.2.2.1⟩

/-- C10 (amended): for any accepted public submission, the persisted
response row carries `respondentId = jsOrNull body.respondentId`: the
caller-supplied value when it is a non-empty string, null when it is absent
or the (falsy) empty string.  The formula involves nothing of the target
survey besides its id — in particular not its `anonymous` flag — so the
pipeline never generates or checks a respondent id from anonymity
settings. -/
theorem c10_respondentId_passthrough (db : DB) (tok : String) (body : ResponseBody)
    (rid : String) (aid : Nat → String) (now : Nat) (failAt : Nat → Bool)
    (s : Survey) (hs : getSurveyByShareToken db tok = some s)
    (hact : s.status = "active") :
    (postPublicResponse db tok body rid aid now failAt).2.responses
      = db.responses ++ [⟨rid, s.id, jsOrNull body.respondentId, now⟩]
  ∧ jsOrNull none = none
  ∧ (∀ r : String, r ≠ "" → jsOrNull (some r) = some r)
  ∧ jsOrNull (some "") = none := by
  refine ⟨?_, rfl, ?_, rfl⟩
  · unfold postPublicResponse
    rw [hs]
    have hb : (s.status == "active") = true := by simp [hact]
    simp only [hb, if_true]
    cases hba : body.answers with
    | none => rfl
    | some l =>
      by_cases h : l.enum.any (fun p => failAt p.1) <;> simp [h]
  · intro r hr
    simp [jsOrNull, hr]

/-- Closed witness for the C10 theorem: a submission to `reqDB` with
respondent id `"bob"` persists exactly `"bob"`. -/
theorem c10_respondentId_passthrough_witness :
    (postPublicResponse reqDB "tok1" ⟨some "bob", none⟩ "r1" (fun i => toString i) 7
        (fun _ => false)).2.responses = [⟨"r1", "s1", some "bob", 7⟩] := by
  have h := c10_respondentId_passthrough reqDB "tok1" ⟨some "bob", none⟩ "r1"
    (fun i => toString i) 7 (fun _ => false)
    ⟨"s1", "t", none, "u", "active", true, false, "tok1", 0, 0⟩ rfl rfl
  rw [h.1]
  rfl

end SurveyPro
